import Mathlib

/-!
Shallow embedding of the interview-session orchestration code of the
gigbazar-adk repository (frontend components `Interview` in
src/unnamed/part_004, `PublicInterview` in
src/frontend/src/components/PublicInterview.tsx, and the job form
`handleAddSkill` in src/unnamed/part_002), together with theorems that
settle the frozen claims about the spec.
-/

namespace GigBazar

/-- JavaScript string truthiness used by `||` chains in the source:
`undefined`/`null` (here `none`) and the empty string are falsy; a
non-empty string is truthy.  `jsStr v` is `some s` exactly when `v`
holds a truthy string `s`. -/
def jsStr : Option String → Option String
  | none => none
  | some s => if s = "" then none else some s

/-- A conversational event as captured by the `onMessage` callback
(src/unnamed/part_004 lines 28-37): an arbitrary provider message
spread together with a client timestamp.  Only the fields the
transcript builder reads are modelled; each may be absent. -/
structure Msg where
  role : Option String
  message : Option String
  text : Option String
  timestamp : Option String
deriving DecidableEq, Repr

/-- One transcript line for one event, from src/unnamed/part_004 line 107:
the role with fallback "unknown", a colon and a space, then the
message field with fallback to the text field and then to the empty
string, each fallback by JavaScript truthiness. -/
def formatMsg (m : Msg) : String :=
  (jsStr m.role).getD "unknown" ++ ": " ++ ((jsStr m.message).or (jsStr m.text)).getD ""

/-- JavaScript `Array.prototype.join(sep)`: elements concatenated with
`sep` between consecutive elements, the empty string on an empty
array. -/
def jsJoin (sep : String) : List String → String
  | [] => ""
  | [a] => a
  | a :: b :: rest => a ++ sep ++ jsJoin sep (b :: rest)

/-- Transcript assembly from src/unnamed/part_004 lines 106-108:
`messagesRef.current.map(...).join('\n')`. -/
def buildTranscript (log : List Msg) : String :=
  jsJoin "\n" (log.map formatMsg)

/-- The two-event log of spec Scenario B. -/
def scenarioBLog : List Msg :=
  [⟨some "interviewer", some "Hello", none, none⟩,
   ⟨some "candidate", some "Hi", none, none⟩]

theorem jsJoin_cons_of_ne_nil (s a : String) (l : List String) (h : l ≠ []) :
    jsJoin s (a :: l) = a ++ s ++ jsJoin s l := by
  cases l with
  | nil => exact absurd rfl h
  | cons b t => rfl

theorem jsJoin_append_of_ne_nil (s : String) (l₁ l₂ : List String)
    (h₁ : l₁ ≠ []) (h₂ : l₂ ≠ []) :
    jsJoin s (l₁ ++ l₂) = jsJoin s l₁ ++ s ++ jsJoin s l₂ := by
  induction l₁ with
  | nil => exact absurd rfl h₁
  | cons a t ih =>
    cases t with
    | nil =>
      rw [List.singleton_append, jsJoin_cons_of_ne_nil s a l₂ h₂]
      rfl
    | cons c t' =>
      rw [List.cons_append, jsJoin_cons_of_ne_nil s a _ (by simp),
        jsJoin_cons_of_ne_nil s a _ (by simp), ih (by simp)]
      simp [String.append_assoc]

theorem buildTranscript_append (l₁ l₂ : List Msg) (h₁ : l₁ ≠ []) (h₂ : l₂ ≠ []) :
    buildTranscript (l₁ ++ l₂) =
      buildTranscript l₁ ++ "\n" ++ buildTranscript l₂ := by
  unfold buildTranscript
  rw [List.map_append]
  exact jsJoin_append_of_ne_nil "\n" _ _ (by simpa using h₁) (by simpa using h₂)

/-- C1: the transcript assembled at session end (stopConversation) has
one line per captured event, formatted as role-colon-space-text, joined
in arrival order by a single newline with no reordering or
deduplication; the empty log yields the empty string, and the
Scenario B log yields exactly the two expected lines.  Purity and
byte-identical re-assembly hold by construction: `buildTranscript` is a
function of the log alone. -/
theorem C1_transcript_assembly (log l₁ l₂ : List Msg) (h₁ : l₁ ≠ []) (h₂ : l₂ ≠ []) :
    buildTranscript [] = ""
    ∧ buildTranscript scenarioBLog = "interviewer: Hello\ncandidate: Hi"
    ∧ buildTranscript log = jsJoin "\n" (log.map formatMsg)
    ∧ buildTranscript (l₁ ++ l₂) = buildTranscript l₁ ++ "\n" ++ buildTranscript l₂ :=
  ⟨rfl, rfl, rfl, buildTranscript_append l₁ l₂ h₁ h₂⟩

/-- Witness for C1 at the concrete Scenario B log, split into its two
entries. -/
theorem C1_transcript_assembly_witness :
    buildTranscript (scenarioBLog.take 1 ++ scenarioBLog.drop 1) =
      buildTranscript (scenarioBLog.take 1) ++ "\n" ++ buildTranscript (scenarioBLog.drop 1) :=
  (C1_transcript_assembly scenarioBLog (scenarioBLog.take 1) (scenarioBLog.drop 1)
    (by decide) (by decide)).2.2.2

/-- The per-event line as claim C10 words it: the role position uses
the event's role whenever the field is present (even as the empty
string), and the literal "unknown" otherwise; the text position uses
the message field when truthy, else the text field when truthy, else
the empty string. -/
def claimFormatMsg (m : Msg) : String :=
  m.role.getD "unknown" ++ ": " ++ ((jsStr m.message).or (jsStr m.text)).getD ""

/-- An event carrying a present-but-empty role string. -/
def emptyRoleMsg : Msg := ⟨some "", some "Hi", none, none⟩

/-- C10 counterexample: on an event whose role field is present but the
empty string, the code renders "unknown: Hi" while the claim's
field-by-field rule (role used whenever present) renders ": Hi". -/
theorem C10_role_fallback_cx :
    formatMsg emptyRoleMsg = "unknown: Hi"
    ∧ claimFormatMsg emptyRoleMsg = ": Hi"
    ∧ formatMsg emptyRoleMsg ≠ claimFormatMsg emptyRoleMsg :=
  ⟨rfl, rfl, by decide⟩

/-- Fallback helper: the string held by `v` when truthy (present and
non-empty), and `d` otherwise — JavaScript string fallback with
logical-or. -/
def truthyOr (v : Option String) (d : String) : String :=
  match v with
  | some s => if s = "" then d else s
  | none => d

/-- The per-event line as the amended claim words it: the role position
uses the event's role when truthy (present and non-empty) and the
literal "unknown" otherwise; the text position uses the message field
when truthy, else the text field when truthy, else the empty string. -/
def amendedFormatMsg (m : Msg) : String :=
  truthyOr m.role "unknown" ++ ": " ++ truthyOr m.message (truthyOr m.text "")

/-- C10 amended: every transcript line falls back field-by-field with
JavaScript truthiness — role when truthy else "unknown", message when
truthy else text when truthy else empty — and an event with a truthy
role but empty message/text renders as the role, the separator, and
nothing after it. -/
theorem C10_role_fallback_amended (m : Msg) :
    formatMsg m = amendedFormatMsg m
    ∧ formatMsg ⟨some "candidate", some "", some "", none⟩ = "candidate: " := by
  constructor
  · unfold formatMsg amendedFormatMsg truthyOr jsStr
    cases m.role with
    | none => cases m.message with
      | none => cases m.text with
        | none => rfl
        | some u => by_cases hu : u = "" <;> simp [hu, Option.or]
      | some t =>
        by_cases ht : t = "" <;> cases m.text with
        | none => simp [ht, Option.or]
        | some u => by_cases hu : u = "" <;> simp [ht, hu, Option.or]
    | some r => by_cases hr : r = "" <;> cases m.message with
      | none => cases m.text with
        | none => simp [hr, Option.or]
        | some u => by_cases hu : u = "" <;> simp [hr, hu, Option.or]
      | some t =>
        by_cases ht : t = "" <;> cases m.text with
        | none => simp [hr, ht, Option.or]
        | some u => by_cases hu : u = "" <;> simp [hr, ht, hu, Option.or]
  · rfl

/-- The hard-coded public agent id of src/unnamed/part_004 line 46. -/
def publicAgentId : String := "agent_1301kdn9m60af3jawwhtacys4z4v"

/-- The observable outcome of the signed-URL request issued in
startConversation (src/unnamed/part_004 lines 58-76): the fetch throws
(network error), resolves with a non-ok status, or resolves ok with a
JSON body carrying optional `signed_url` and `error` fields. -/
inductive SignedUrlOutcome where
  | networkError : SignedUrlOutcome
  | httpError (status : Nat) : SignedUrlOutcome
  | httpOk (signedUrl : Option String) (error : Option String) : SignedUrlOutcome
deriving DecidableEq, Repr

/-- Connection credential the start sequence acts on: the fetched
signed URL when one was obtained, otherwise the public agent id
fallback.  The source encodes this as the nullable `signedUrl`
variable: `some` when `response.ok` and `data.signed_url` is truthy,
`none` on every other outcome (lines 49-76). -/
inductive Credential where
  | signed (url : String) : Credential
  | fallback (agentId : String) : Credential
deriving DecidableEq, Repr

/-- Credential acquisition from src/unnamed/part_004 lines 49-76: the
inner try/catch absorbs a thrown fetch; a non-ok response or a body
without a truthy `signed_url` only logs a warning; `signedUrl` remains
null on all of these, and the caller then falls back to the public
agent id (line 89). -/
def acquireCredential (o : SignedUrlOutcome) : Credential :=
  match o with
  | .networkError => .fallback publicAgentId
  | .httpError _ => .fallback publicAgentId
  | .httpOk su _ =>
    match jsStr su with
    | some u => .signed u
    | none => .fallback publicAgentId

/-- The argument shape of the `conversation.startSession` call
(src/unnamed/part_004 lines 79-94). -/
inductive SessionStart where
  | withSignedUrl (url : String) (connectionType : String) : SessionStart
  | withAgentId (agentId : String) (connectionType : String) : SessionStart
deriving DecidableEq, Repr

/-- The connection step of startConversation: with a signed URL the
session opens over websocket, otherwise with the public agent id over
webrtc (src/unnamed/part_004 lines 78-94). -/
def openSession (c : Credential) : SessionStart :=
  match c with
  | .signed u => .withSignedUrl u "websocket"
  | .fallback a => .withAgentId a "webrtc"

/-- Outcome of the microphone permission request
(`navigator.mediaDevices.getUserMedia`, line 44). -/
inductive MicResult where
  | granted : MicResult
  | denied : MicResult
deriving DecidableEq, Repr

/-- Why the start sequence landed in its failure branch: the outer
catch (lines 96-99) receives either the getUserMedia rejection or a
startSession rejection. -/
inductive StartFailReason where
  | permissionDenied : StartFailReason
  | connectionFailed : StartFailReason
deriving DecidableEq, Repr

/-- Result of one run of startConversation. -/
inductive StartResult where
  | failed (reason : StartFailReason) : StartResult
  | connectedVia (s : SessionStart) : StartResult
deriving DecidableEq, Repr

/-- Environment a single startConversation run observes: the
microphone decision, the signed-URL request outcome, and whether the
chosen startSession call rejects. -/
structure StartEnv where
  mic : MicResult
  urlOutcome : SignedUrlOutcome
  openFails : Bool
deriving DecidableEq, Repr

/-- Trace of one startConversation run: its result plus how many
getUserMedia requests, signed-URL fetches and startSession calls it
issued. -/
structure StartTrace where
  result : StartResult
  micRequests : Nat
  signedUrlRequests : Nat
  startSessionCalls : Nat
deriving DecidableEq, Repr

/-- startConversation from src/unnamed/part_004 lines 41-100: request
the microphone first; on denial the outer catch alerts and returns —
the signed-URL fetch and startSession are never reached and nothing is
retried.  On grant, acquire a credential (never throwing), then call
startSession once with the corresponding argument shape; a rejected
startSession also lands in the outer catch. -/
def startConversation (env : StartEnv) : StartTrace :=
  match env.mic with
  | .denied =>
    { result := .failed .permissionDenied, micRequests := 1
      signedUrlRequests := 0, startSessionCalls := 0 }
  | .granted =>
    let c := acquireCredential env.urlOutcome
    if env.openFails then
      { result := .failed .connectionFailed, micRequests := 1
        signedUrlRequests := 1, startSessionCalls := 1 }
    else
      { result := .connectedVia (openSession c), micRequests := 1
        signedUrlRequests := 1, startSessionCalls := 1 }

/-- C2: whatever the signed-URL request's outcome — a thrown network
error, a non-ok HTTP status, or an ok body carrying an error instead
of a signed URL — credential acquisition yields exactly a signed URL
or the public-agent fallback (it is a total function, so no error
escapes to the candidate flow), and the connection step proceeds with
the corresponding startSession shape. -/
theorem C2_credential_two_outcomes (o : SignedUrlOutcome) :
    (∃ u, acquireCredential o = .signed u
        ∧ openSession (acquireCredential o) = .withSignedUrl u "websocket")
    ∨ (acquireCredential o = .fallback publicAgentId
        ∧ openSession (acquireCredential o) = .withAgentId publicAgentId "webrtc") := by
  cases o with
  | networkError => exact Or.inr ⟨rfl, rfl⟩
  | httpError s => exact Or.inr ⟨rfl, rfl⟩
  | httpOk su e =>
    cases h : jsStr su with
    | none => exact Or.inr ⟨by simp [acquireCredential, h], by simp [acquireCredential, h, openSession]⟩
    | some u => exact Or.inl ⟨u, by simp [acquireCredential, h], by simp [acquireCredential, h, openSession]⟩

/-- C5: when microphone permission is denied, the start sequence ends
in the terminal failed branch with the permission denial as its
reason, issues no signed-URL request to the backend, makes no
startSession call, and requests the microphone exactly once (no
auto-retry). -/
theorem C5_permission_denied_terminal (env : StartEnv) (h : env.mic = .denied) :
    startConversation env =
      { result := .failed .permissionDenied, micRequests := 1
        signedUrlRequests := 0, startSessionCalls := 0 } := by
  unfold startConversation
  rw [h]

/-- Witness for C5 at a concrete denied environment. -/
theorem C5_permission_denied_terminal_witness :
    startConversation ⟨.denied, .httpOk (some "wss://u") none, false⟩ =
      { result := .failed .permissionDenied, micRequests := 1
        signedUrlRequests := 0, startSessionCalls := 0 } :=
  C5_permission_denied_terminal ⟨.denied, .httpOk (some "wss://u") none, false⟩ rfl

/-- The two job-form fields handleAddSkill reads and writes
(src/unnamed/part_002: `skillInput` and `skills` state). -/
structure JobFormState where
  skillInput : String
  skills : List String
deriving DecidableEq, Repr

/-- JavaScript `String.prototype.trim()`: drop whitespace characters
from both ends of the string. -/
def jsTrim (s : String) : String :=
  ⟨((s.data.dropWhile Char.isWhitespace).reverse.dropWhile Char.isWhitespace).reverse⟩

/-- handleAddSkill from src/unnamed/part_002 lines 260-265:
`if (skillInput.trim() && !skills.includes(skillInput.trim()))` then
append the trimmed skill and clear the input, else do nothing.  The
guard's first conjunct is JavaScript truthiness of the trimmed string
(non-empty). -/
def handleAddSkill (s : JobFormState) : JobFormState :=
  if !(jsTrim s.skillInput == "") && !(s.skills.contains (jsTrim s.skillInput)) then
    { skillInput := "", skills := s.skills ++ [jsTrim s.skillInput] }
  else s

/-- C8 counterexample: adding the skill "Go" to a list already
containing "Go" leaves the state unchanged — the duplicate is not
appended, so uniqueness is enforced by the form, contradicting the
claim that adding a string equal to an existing skill is permitted. -/
theorem C8_skill_duplicate_cx :
    handleAddSkill ⟨"Go", ["Go"]⟩ = ⟨"Go", ["Go"]⟩
    ∧ (handleAddSkill ⟨"Go", ["Go"]⟩).skills ≠ ["Go", "Go"] := by
  constructor
  · decide
  · decide

/-- C8 amended: a skill whose trimmed value is non-empty and not
already in the list is appended at the end (insertion order is
preserved: the previous list is a prefix of the new one, in every
case); a skill already present, or a blank input, leaves the state
unchanged — uniqueness of the skill strings is enforced by the form
handler. -/
theorem C8_skill_add_amended (s : JobFormState) :
    (jsTrim s.skillInput ≠ "" → s.skills.contains (jsTrim s.skillInput) = false →
      (handleAddSkill s).skills = s.skills ++ [jsTrim s.skillInput])
    ∧ (s.skills.contains (jsTrim s.skillInput) = true → handleAddSkill s = s)
    ∧ s.skills <+: (handleAddSkill s).skills := by
  refine ⟨?_, ?_, ?_⟩
  · intro hne hmem
    have h1 : (jsTrim s.skillInput == "") = false := beq_eq_false_iff_ne.mpr hne
    have hmem' : jsTrim s.skillInput ∉ s.skills := by simpa using hmem
    simp [handleAddSkill, h1, hmem']
  · intro hmem
    have hmem' : jsTrim s.skillInput ∈ s.skills := by simpa using hmem
    simp [handleAddSkill, hmem']
  · unfold handleAddSkill
    split
    · exact List.prefix_append s.skills _
    · exact List.prefix_refl _

/-- Witness for C8 amended: adding "Rust" to ["Go"] appends it. -/
theorem C8_skill_add_amended_witness :
    (handleAddSkill ⟨"Rust", ["Go"]⟩).skills = ["Go"] ++ [jsTrim "Rust"] :=
  (C8_skill_add_amended ⟨"Rust", ["Go"]⟩).1 (by decide) (by decide)

/-- The page stages of PublicInterview.tsx (line 21). -/
inductive Stage where
  | info : Stage
  | form : Stage
  | interview : Stage
  | complete : Stage
deriving DecidableEq, Repr

/-- Status of the useConversation SDK object as the component reads it
(src/unnamed/part_004 lines 143-144). -/
inductive ConvStatus where
  | disconnected : ConvStatus
  | connecting : ConvStatus
  | connected : ConvStatus
deriving DecidableEq, Repr

/-- One update_interview write as issued by handleInterviewEnd
(PublicInterview.tsx lines 105-116): the updates object carries a
status and a transcript. -/
structure InterviewUpdate where
  status : String
  transcript : String
deriving DecidableEq, Repr

/-- The joint client state of one job-scoped interview page: the
PublicInterview stage and interviewId, the child Interview component
conversation status and captured message log, whether a
stopConversation invocation is awaiting its endSession call, and the
sequence of update_interview writes issued so far. -/
structure SysState where
  stage : Stage
  interviewId : String
  conv : ConvStatus
  log : List Msg
  pendingStop : Bool
  writes : List InterviewUpdate
deriving DecidableEq, Repr

/-- handleInterviewEnd (PublicInterview.tsx lines 100-122) on the path
where the update fetch resolves: the only guard is
`if (!interviewId) return`; otherwise one write with status
"completed" and `transcript || ''` is issued and the stage is set to
complete.  Neither the current stage nor any earlier write is
checked. -/
def handleInterviewEnd_ok (s : SysState) (t : Option String) : SysState :=
  if s.interviewId = "" then s
  else { s with
    writes := s.writes ++ [⟨"completed", (jsStr t).getD ""⟩]
    stage := .complete }

/-- The user and provider events the interview page reacts to. -/
inductive Ev where
  | clickStart : Ev
  | openOk : Ev
  | openFail : Ev
  | msgArrived (m : Msg) : Ev
  | clickEndCall : Ev
  | endSessionOk : Ev
  | endSessionFail : Ev
  | clickBackToDashboard : Ev
deriving DecidableEq, Repr

/-- One transition of the interview page, `none` when the event is not
enabled in state `s`.  Guards mirror the rendered controls of
src/unnamed/part_004 lines 146-190 and PublicInterview.tsx:

* clickStart: the start button renders when not connected and is
  disabled while connecting.
* openOk / openFail: the in-flight startSession promise resolves or
  rejects; nothing in the code ever aborts it, so it stays enabled in
  every stage while the status is connecting.
* msgArrived: onMessage appends to the log while connected.
* clickEndCall: the end-call button renders only while connected; it
  begins stopConversation, which first awaits endSession.
* endSessionOk: endSession resolves; stopConversation builds the
  transcript from the captured log and calls onEndInterview with it
  (the jobId branch, lines 110-114).
* endSessionFail: endSession rejects; the await throws out of
  stopConversation before the transcript lines are reached, so nothing
  else happens.
* clickBackToDashboard: the always-rendered header button (line 151)
  calls onEndInterview with no transcript, whatever the connection
  status; it does not touch the conversation object. -/
def step (s : SysState) (e : Ev) : Option SysState :=
  match e with
  | .clickStart =>
    if s.stage = .interview ∧ s.conv = .disconnected then
      some { s with conv := .connecting }
    else none
  | .openOk =>
    if s.conv = .connecting then some { s with conv := .connected } else none
  | .openFail =>
    if s.conv = .connecting then some { s with conv := .disconnected } else none
  | .msgArrived m =>
    if s.conv = .connected then some { s with log := s.log ++ [m] } else none
  | .clickEndCall =>
    if s.stage = .interview ∧ s.conv = .connected ∧ s.pendingStop = false then
      some { s with pendingStop := true }
    else none
  | .endSessionOk =>
    if s.pendingStop = true then
      some (handleInterviewEnd_ok
        { s with conv := .disconnected, pendingStop := false }
        (some (buildTranscript s.log)))
    else none
  | .endSessionFail =>
    if s.pendingStop = true then some { s with pendingStop := false } else none
  | .clickBackToDashboard =>
    if s.stage = .interview then some (handleInterviewEnd_ok s none) else none

/-- Run a sequence of events from a state; `none` as soon as an event
is not enabled. -/
def run (s : SysState) : List Ev → Option SysState
  | [] => some s
  | e :: rest =>
    match step s e with
    | none => none
    | some s' => run s' rest

/-- C9: for a job-scoped session whose interview record exists
(interviewId non-empty), the always-visible Back to Dashboard action —
onEndInterview with no transcript argument — finalizes the interview
as completed with the empty-string transcript, in any connection
state, any captured log and any pending-stop status. -/
theorem C9_back_to_dashboard_empty_transcript (s : SysState)
    (hst : s.stage = .interview) (hid : s.interviewId ≠ "") :
    step s .clickBackToDashboard =
      some { s with writes := s.writes ++ [⟨"completed", ""⟩], stage := .complete } := by
  simp [step, hst, handleInterviewEnd_ok, hid, jsStr]

/-- Witness for C9: Back to Dashboard while connected with a captured
log completes the record with an empty transcript. -/
theorem C9_back_to_dashboard_empty_transcript_witness :
    step ⟨.interview, "iv1", .connected, scenarioBLog, false, []⟩ .clickBackToDashboard =
      some ⟨.complete, "iv1", .connected, scenarioBLog, false, [⟨"completed", ""⟩]⟩ :=
  C9_back_to_dashboard_empty_transcript
    ⟨.interview, "iv1", .connected, scenarioBLog, false, []⟩ rfl (by decide)

/-- C6 counterexample: from Connecting, the only available cancel
action (Back to Dashboard) finalizes the record and leaves the
in-flight connection attempt running, and a subsequent successful open
still lands the conversation in connected — the claim that a cancelled
attempt can never later reach Connected is false on this concrete
run. -/
theorem C6_cancel_not_aborted_cx :
    run ⟨.interview, "iv1", .disconnected, [], false, []⟩
        [.clickStart, .clickBackToDashboard, .openOk] =
      some ⟨.complete, "iv1", .connected, [], false, [⟨"completed", ""⟩]⟩
    ∧ (run ⟨.interview, "iv1", .disconnected, [], false, []⟩
        [.clickStart, .clickBackToDashboard, .openOk]).map SysState.conv =
      some ConvStatus.connected := by
  constructor
  · decide
  · decide

/-- C6 amended: while the status is connecting, the end-call control is
not rendered (its event is disabled); the only cancel affordance, Back
to Dashboard, finalizes the interview record and moves the page to
complete but does not abort the in-flight attempt — the conversation
status stays connecting and a later successful open still moves it to
connected. -/
theorem C6_cancel_amended (s : SysState) (hst : s.stage = .interview)
    (hc : s.conv = .connecting) (hid : s.interviewId ≠ "") :
    step s .clickEndCall = none
    ∧ step s .clickBackToDashboard =
        some { s with writes := s.writes ++ [⟨"completed", ""⟩], stage := .complete }
    ∧ (step s .clickBackToDashboard).map SysState.conv = some .connecting
    ∧ step { s with writes := s.writes ++ [⟨"completed", ""⟩], stage := .complete } .openOk =
        some { s with writes := s.writes ++ [⟨"completed", ""⟩], stage := .complete, conv := .connected } := by
  refine ⟨?_, ?_, ?_, ?_⟩
  · simp [step, hc]
  · simp [step, hst, handleInterviewEnd_ok, hid, jsStr]
  · simp [step, hst, handleInterviewEnd_ok, hid, jsStr, hc]
  · simp [step, hc]

/-- Witness for C6 amended at a concrete connecting state. -/
theorem C6_cancel_amended_witness :
    step ⟨.interview, "iv1", .connecting, [], false, []⟩ .clickEndCall = none
    ∧ step ⟨.interview, "iv1", .connecting, [], false, []⟩ .clickBackToDashboard =
        some ⟨.complete, "iv1", .connecting, [], false, [⟨"completed", ""⟩]⟩ :=
  ⟨(C6_cancel_amended ⟨.interview, "iv1", .connecting, [], false, []⟩ rfl rfl (by decide)).1,
   (C6_cancel_amended ⟨.interview, "iv1", .connecting, [], false, []⟩ rfl rfl (by decide)).2.1⟩

/-- C4 counterexample: overlapping end actions finalize the same record
twice — End Call begins stopConversation, Back to Dashboard then
completes the record with an empty transcript, and when endSession
resolves the pending stopConversation issues a second completed-write
carrying the assembled transcript, re-writing the transcript of the
already-completed record.  This refutes both the exactly-once mutation
and the never-re-written invariant. -/
theorem C4_double_finalize_cx :
    run ⟨.interview, "iv1", .connected, scenarioBLog, false, []⟩
        [.clickEndCall, .clickBackToDashboard, .endSessionOk] =
      some ⟨.complete, "iv1", .disconnected, scenarioBLog, false,
        [⟨"completed", ""⟩, ⟨"completed", "interviewer: Hello\ncandidate: Hi"⟩]⟩
    ∧ ((run ⟨.interview, "iv1", .connected, scenarioBLog, false, []⟩
        [.clickEndCall, .clickBackToDashboard, .endSessionOk]).map
          (fun s => s.writes.length)) = some 2 := by
  constructor
  · decide
  · decide

/-- C4 amended: every invocation of the end handler with a non-empty
interviewId appends one write with status completed and the supplied
transcript (empty when absent) and sets the stage to complete,
regardless of the current stage, connection status or earlier writes —
the code enforces no exactly-once finalization, so a later invocation
after completion appends a further write that replaces the stored
transcript. -/
theorem C4_finalize_amended (s : SysState) (t : Option String) (hid : s.interviewId ≠ "") :
    handleInterviewEnd_ok s t =
      { s with writes := s.writes ++ [⟨"completed", (jsStr t).getD ""⟩], stage := .complete } := by
  simp [handleInterviewEnd_ok, hid]

/-- Witness for C4 amended: a second invocation on an already-completed
state appends a second completed-write. -/
theorem C4_finalize_amended_witness :
    handleInterviewEnd_ok
        ⟨.complete, "iv1", .disconnected, [], false, [⟨"completed", ""⟩]⟩ (some "late") =
      ⟨.complete, "iv1", .disconnected, [], false,
        [⟨"completed", ""⟩, ⟨"completed", "late"⟩]⟩ :=
  C4_finalize_amended
    ⟨.complete, "iv1", .disconnected, [], false, [⟨"completed", ""⟩]⟩ (some "late") (by decide)

/-- C7 counterexample: a session that reaches Ending (End Call clicked,
stopConversation awaiting endSession) is not unconditionally
completed — when endSession rejects, the handler aborts before the
transcript lines, so no write is issued, the page never reaches the
complete stage, and the captured events are dropped. -/
theorem C7_ending_not_unconditional_cx :
    run ⟨.interview, "iv1", .connected, scenarioBLog, false, []⟩
        [.clickEndCall, .endSessionFail] =
      some ⟨.interview, "iv1", .connected, scenarioBLog, false, []⟩
    ∧ ((run ⟨.interview, "iv1", .connected, scenarioBLog, false, []⟩
        [.clickEndCall, .endSessionFail]).map (fun s => s.writes)) = some [] := by
  constructor
  · decide
  · decide

/-- C7 amended: the Ending-to-Completed step is conditional on the
endSession call resolving — when it resolves, the transcript is
assembled from exactly the captured events and the record is finalized
as completed; when it rejects, stopConversation stops before assembly
and nothing is written. -/
theorem C7_ending_amended (s : SysState) (hp : s.pendingStop = true)
    (hid : s.interviewId ≠ "") :
    step s .endSessionOk =
      some { s with conv := .disconnected, pendingStop := false, writes := s.writes ++ [⟨"completed", buildTranscript s.log⟩], stage := .complete }
    ∧ step s .endSessionFail = some { s with pendingStop := false } := by
  constructor
  · have hT : (jsStr (some (buildTranscript s.log))).getD "" = buildTranscript s.log := by
      unfold jsStr
      by_cases h : buildTranscript s.log = "" <;> simp [h]
    simp [step, hp, handleInterviewEnd_ok, hid, hT]
  · simp [step, hp]

/-- Witness for C7 amended at a concrete pending-stop state. -/
theorem C7_ending_amended_witness :
    step ⟨.interview, "iv1", .connected, scenarioBLog, true, []⟩ .endSessionOk =
      some ⟨.complete, "iv1", .disconnected, scenarioBLog, false,
        [⟨"completed", buildTranscript scenarioBLog⟩]⟩ :=
  (C7_ending_amended ⟨.interview, "iv1", .connected, scenarioBLog, true, []⟩ rfl (by decide)).1

/-- Outcome of the single update_interview fetch: the promise resolves
with an ok status, resolves with a non-ok HTTP status, or rejects
(network error). -/
inductive WriteOutcome where
  | resolvedOk : WriteOutcome
  | resolvedHttpError (status : Nat) : WriteOutcome
  | networkError : WriteOutcome
deriving DecidableEq, Repr

/-- What one handleInterviewEnd run did: how many update fetches it
issued, the page stage afterwards, and whether the failure toast was
shown. -/
structure EndAttempt where
  attempts : Nat
  stageAfter : Stage
  errorToastShown : Bool
deriving DecidableEq, Repr

/-- handleInterviewEnd (PublicInterview.tsx lines 100-122) with the
fetch outcome explicit: after the `if (!interviewId) return` guard it
issues exactly one fetch; a rejected fetch lands in the catch, which
shows a toast and leaves the stage unchanged; any resolved response —
its status field is never inspected — is followed by
setting the stage to complete. -/
def handleInterviewEndAttempt (interviewId : String) (o : WriteOutcome)
    (st : Stage) : EndAttempt :=
  if interviewId = "" then ⟨0, st, false⟩
  else
    match o with
    | .networkError => ⟨1, st, true⟩
    | .resolvedOk => ⟨1, .complete, false⟩
    | .resolvedHttpError _ => ⟨1, .complete, false⟩

/-- C3 counterexample: when the update fetch rejects, the error is
surfaced after a single attempt — the write is never retried — and
when the fetch resolves with HTTP 500 the UI still enters the
completed stage even though storage never confirmed success.  Both
halves of the claim fail on these concrete runs. -/
theorem C3_no_retry_cx :
    handleInterviewEndAttempt "iv1" .networkError .interview = ⟨1, .interview, true⟩
    ∧ ¬ 2 ≤ (handleInterviewEndAttempt "iv1" .networkError .interview).attempts
    ∧ handleInterviewEndAttempt "iv1" (.resolvedHttpError 500) .interview =
        ⟨1, .complete, false⟩ := by
  refine ⟨?_, ?_, ?_⟩
  · decide
  · decide
  · decide

/-- C3 amended: the final transcript write is attempted exactly once,
with no retry; on a rejected fetch the failure toast is shown and the
stage does not advance; whenever the fetch resolves — the HTTP status
is not checked — the UI enters the completed stage. -/
theorem C3_persistence_amended (id : String) (o : WriteOutcome) (st : Stage)
    (hid : id ≠ "") :
    (handleInterviewEndAttempt id o st).attempts = 1
    ∧ (o = .networkError → handleInterviewEndAttempt id o st = ⟨1, st, true⟩)
    ∧ (o ≠ .networkError → handleInterviewEndAttempt id o st = ⟨1, .complete, false⟩) := by
  refine ⟨?_, ?_, ?_⟩
  · unfold handleInterviewEndAttempt
    simp only [hid, if_false]
    cases o <;> rfl
  · intro ho
    simp [handleInterviewEndAttempt, hid, ho]
  · intro ho
    unfold handleInterviewEndAttempt
    simp only [hid, if_false]
    cases o with
    | resolvedOk => rfl
    | resolvedHttpError s => rfl
    | networkError => exact absurd rfl ho

/-- Witness for C3 amended: one rejected write at a concrete input. -/
theorem C3_persistence_amended_witness :
    handleInterviewEndAttempt "iv1" .networkError .interview = ⟨1, .interview, true⟩ :=
  (C3_persistence_amended "iv1" .networkError .interview (by decide)).2.1 rfl

end GigBazar
